import Mathlib

/-!
Verification development for the electionviz pipeline (src/plot.py, src/app.py).

The Python pipeline is shallowly embedded as executable Lean definitions:

* JSON dictionaries with optional keys become structures of `Option` fields.
  A key that is absent, `null`, or holds an empty (falsy) dictionary is
  modelled as `none`; Python `x or d` on numbers is `pyOrNat`.
* Python's float division `a * 100 / b` is modelled exactly: metric values
  live in `Frac` (a kernel-computable fraction of naturals, normalized by
  gcd on construction) and `Frac.toRat` maps them to `ℚ`.  The lemma
  `Frac.toRat_divNat` shows `Frac.divNat` is genuine rational division, so
  theorem statements can speak in `ℚ`.
* `pandas` tables become `List Row`; `groupby`, `set_index`/`sort_index`,
  and column rewrites become filters, sorts and maps over that list.
-/

/-- Exact fractions with executable arithmetic.  All numeric values of the
pipeline are nonnegative, so a numerator in `ℕ` suffices. -/
structure Frac where
  num : Nat
  den : Nat
deriving DecidableEq, Repr

/-- Normalize a fraction by the gcd; a zero denominator is mapped to `0/1`
(the pipeline never divides by zero: every division site is guarded). -/
def Frac.normalize (n d : Nat) : Frac :=
  if d = 0 then ⟨0, 1⟩
  else
    let g : Nat := Nat.gcd n d
    ⟨n / g, d / g⟩

def Frac.ofNat (n : Nat) : Frac := ⟨n, 1⟩

/-- `n / d` as an exact fraction; models Python's true division on counts. -/
def Frac.divNat (n d : Nat) : Frac := Frac.normalize n d

def Frac.add (a b : Frac) : Frac :=
  Frac.normalize (a.num * b.den + b.num * a.den) (a.den * b.den)

def Frac.sum (l : List Frac) : Frac := l.foldl Frac.add (Frac.ofNat 0)

def Frac.divByNat (a : Frac) (k : Nat) : Frac := Frac.normalize a.num (a.den * k)

/-- Interpretation of a `Frac` as a rational number. -/
def Frac.toRat (a : Frac) : ℚ := (a.num : ℚ) / (a.den : ℚ)

theorem Frac.toRat_ofNat (n : Nat) : (Frac.ofNat n).toRat = n := by
  simp [Frac.toRat, Frac.ofNat]

/-- `Frac.divNat` really is rational division: justification that the
normalized pair faithfully models Python's `a / b`. -/
theorem Frac.toRat_divNat (n d : Nat) (hd : d ≠ 0) :
    (Frac.divNat n d).toRat = (n : ℚ) / (d : ℚ) := by
  have hg : Nat.gcd n d ≠ 0 := by
    intro h
    exact hd (Nat.eq_zero_of_gcd_eq_zero_right h)
  have hgq : ((Nat.gcd n d : ℕ) : ℚ) ≠ 0 := by exact_mod_cast hg
  have hdq : ((d : ℕ) : ℚ) ≠ 0 := by exact_mod_cast hd
  unfold Frac.divNat Frac.normalize
  rw [if_neg hd]
  simp only [Frac.toRat]
  rw [Nat.cast_div (Nat.gcd_dvd_left n d) hgq, Nat.cast_div (Nat.gcd_dvd_right n d) hgq]
  rw [div_div_div_cancel_right₀]
  exact hgq

/-! ## Raw data model

Mirrors the JSON shapes read by `ElectionDataProcessor._prepare_dataframe`
(src/plot.py).  Field names follow the JSON keys. -/

/-- `Voters.General` / `Electors.General`: per-gender counts. -/
structure GeneralCounts where
  men : Option Nat
  women : Option Nat
deriving DecidableEq, Repr

/-- `{… , "Total": n}` blocks (`Voters.Total`, `Electors.Total`). -/
structure TotalCount where
  total : Option Nat
deriving DecidableEq, Repr

/-- `Voters."POLLING PERCENTAGE"`. -/
structure PollingPercentage where
  total : Option Frac
deriving DecidableEq, Repr

/-- The `Voters` block of a year record. -/
structure Voters where
  general : Option GeneralCounts
  total : Option TotalCount
  pollingPercentage : Option PollingPercentage
deriving DecidableEq, Repr

/-- The `Electors` block of a year record. -/
structure Electors where
  general : Option GeneralCounts
  total : Option TotalCount
deriving DecidableEq, Repr

/-- A candidate's `% of Votes Secured` block. -/
structure VotesSecured where
  overTotalVotesPolled : Option Frac
deriving DecidableEq, Repr

/-- One entry of the `Candidates` list. -/
structure Candidate where
  candidateName : Option String
  party : Option String
  votes : Option Nat
  gender : Option String
  age : Option Nat
  category : Option String
  pctOfVotesSecured : Option VotesSecured
deriving DecidableEq, Repr

/-- `Result.Winner`: the `candidates` field is the winner's declared name
(JSON key `Candidates`). -/
structure Winner where
  party : Option String
  votes : Option Nat
  candidates : Option String
deriving DecidableEq, Repr

/-- `Result."Runner-Up"`. -/
structure RunnerUp where
  party : Option String
  votes : Option Nat
deriving DecidableEq, Repr

/-- The `Result` block of a year record. -/
structure ResultData where
  winner : Option Winner
  runnerUp : Option RunnerUp
  margin : Option Nat
deriving DecidableEq, Repr

/-- The `Votes` block of a year record. -/
structure VotesMeta where
  totalValidVotesPolled : Option Nat
deriving DecidableEq, Repr

/-- One constituency-year record (`pc[year]`).  A `none` field models a key
that is absent, `null`, or an empty dictionary. -/
structure YearData where
  category : Option String
  result : Option ResultData
  candidates : Option (List Candidate)
  voters : Option Voters
  electors : Option Electors
  votes : Option VotesMeta
deriving DecidableEq, Repr

/-- One element of the election-data array: `ID`, `Constituency`, and the
year-label → record mapping.  A year whose record is absent, `null` or empty
is simply missing from `years`. -/
structure Constituency where
  id : String
  constituency : String
  years : List (String × YearData)
deriving DecidableEq, Repr

/-- `pc.get(year, {})` followed by the truthiness check. -/
def Constituency.lookupYear (pc : Constituency) (y : String) : Option YearData :=
  List.lookup y pc.years

/-- Python `x or d` on an optional count: `None` and `0` are falsy. -/
def pyOrNat (o : Option Nat) (d : Nat) : Nat :=
  match o with
  | some n => if n = 0 then d else n
  | none => d

/-- `ELECTION_YEARS = ['2009', '2019', '2024']` (2014 is skipped). -/
def ELECTION_YEARS : List String := ["2009", "2019", "2024"]

/-! ## Row normalizer -/

/-- One row of the flat per-(year, constituency) table, one field per entry
of the dictionary built in `_prepare_dataframe`. -/
structure Row where
  year : String
  pc_id : String
  pc_name : String
  category : Option String
  total_voter_turnout : Frac
  male_voter_turnout : Frac
  female_voter_turnout : Frac
  party_of_winner : Option String
  margin : Frac
  vote_share_of_winner : Frac
  gender_of_winner : Option String
  category_of_winner : Option String
  nota_vote_share : Frac
  age_of_winner : Option Nat
  runner_up_party : Option String
  true_mandate : Frac
  vote_splitting_index : Frac
deriving DecidableEq, Repr

/-- The scan inside `_get_candidate_detail`: a candidate entry without a
`Candidate Name` key raises `KeyError`, which the caller catches and turns
into `None` — hence the whole scan aborts with `none` there. -/
def findWinnerDetail {α : Type} (winnerName : String) (detailKey : Candidate → Option α) :
    List Candidate → Option α
  | [] => none
  | c :: rest =>
    match c.candidateName with
    | none => none
    | some n => if n = winnerName then detailKey c else findWinnerDetail winnerName detailKey rest

/-- `ElectionDataProcessor._get_candidate_detail`: looks up the winner's
declared name in the candidate list; every missing/malformed structure
(`Result`, `Winner`, `Candidates`) yields `none` (the Python code catches
`KeyError`/`TypeError`/`AttributeError`); the function is total — it never
raises. -/
def getCandidateDetail {α : Type} (pc : Constituency) (year : String)
    (detailKey : Candidate → Option α) : Option α :=
  match pc.lookupYear year with
  | none => none
  | some yd =>
    match (yd.result.bind ResultData.winner).bind Winner.candidates with
    | none => none
    | some winnerName =>
      match yd.candidates with
      | none => none
      | some cs => findWinnerDetail winnerName detailKey cs

/-- The scan inside `_find_nota_vote_share`. -/
def notaScan : List Candidate → Frac
  | [] => Frac.ofNat 0
  | c :: rest =>
    if c.candidateName == some "NOTA" then
      (c.pctOfVotesSecured.bind VotesSecured.overTotalVotesPolled).getD (Frac.ofNat 0)
    else notaScan rest

/-- `ElectionDataProcessor._find_nota_vote_share`. -/
def findNotaVoteShare (yd : YearData) : Frac :=
  notaScan (yd.candidates.getD [])

/-- The body of the inner loop of `_prepare_dataframe` (lines 95-165 of
src/plot.py): derives one `Row` from a non-empty year record. -/
def buildRow (pc : Constituency) (year : String) (yd : YearData) : Row :=
  let result := yd.result
  let voters := yd.voters
  let electors := yd.electors
  let votesMeta := yd.votes
  let votersGeneral := voters.bind Voters.general
  let electorsGeneral := electors.bind Electors.general
  let votersTotalDict := voters.bind Voters.total
  let menVoters := pyOrNat (votersGeneral.bind GeneralCounts.men) 0
  let menElectors := pyOrNat (electorsGeneral.bind GeneralCounts.men) 1
  let womenVoters := pyOrNat (votersGeneral.bind GeneralCounts.women) 0
  let womenElectors := pyOrNat (electorsGeneral.bind GeneralCounts.women) 1
  let marginVal := pyOrNat (result.bind ResultData.margin) 0
  let totalPolled := pyOrNat (votersTotalDict.bind TotalCount.total) 0
  let winnerVotes := pyOrNat ((result.bind ResultData.winner).bind Winner.votes) 0
  let runnerUpData := result.bind ResultData.runnerUp
  let runnerUpVotes :=
    match runnerUpData with
    | some ru => pyOrNat ru.votes 0
    | none => 0
  let runnerUpPartyName :=
    match runnerUpData with
    | some ru => ru.party
    | none => some "None (Unopposed)"
  let totalValidVotes :=
    match votesMeta with
    | some vm => vm.totalValidVotesPolled.getD 0
    | none => 0
  let totalElectors := ((electors.bind Electors.total).bind TotalCount.total).getD 1
  let pollingPercent :=
    match voters.bind Voters.pollingPercentage with
    | some pp => pp.total.getD (Frac.ofNat 100)
    | none => Frac.ofNat 100
  { year := year
    pc_id := pc.id
    pc_name := pc.constituency
    category := yd.category
    total_voter_turnout := pollingPercent
    male_voter_turnout :=
      if 0 < menElectors ∧ 0 < menVoters then Frac.divNat (menVoters * 100) menElectors
      else Frac.ofNat 100
    female_voter_turnout :=
      if 0 < womenElectors ∧ 0 < womenVoters then Frac.divNat (womenVoters * 100) womenElectors
      else Frac.ofNat 100
    party_of_winner := (result.bind ResultData.winner).bind Winner.party
    margin :=
      if 0 < totalPolled then Frac.divNat (marginVal * 100) totalPolled
      else Frac.ofNat 100
    vote_share_of_winner :=
      if 0 < totalPolled then Frac.divNat (winnerVotes * 100) totalPolled
      else Frac.ofNat 100
    gender_of_winner := getCandidateDetail pc year Candidate.gender
    category_of_winner := getCandidateDetail pc year Candidate.category
    nota_vote_share := findNotaVoteShare yd
    age_of_winner := getCandidateDetail pc year Candidate.age
    runner_up_party := runnerUpPartyName
    true_mandate :=
      if 0 < totalElectors ∧ 0 < winnerVotes then Frac.divNat (winnerVotes * 100) totalElectors
      else Frac.ofNat 0
    vote_splitting_index :=
      if 0 < totalValidVotes then Frac.divNat ((winnerVotes + runnerUpVotes) * 100) totalValidVotes
      else Frac.ofNat 100 }

/-- The rows one constituency contributes: one per year of `ELECTION_YEARS`
whose record is present and non-empty. -/
def pcBlock (pc : Constituency) : List Row :=
  ELECTION_YEARS.filterMap fun y => (pc.lookupYear y).map fun yd => buildRow pc y yd

/-- The un-consolidated table (`data_list` in `_prepare_dataframe`). -/
def rawRows (data : List Constituency) : List Row :=
  data.flatMap pcBlock

/-! ## Categorical consolidation (`_clean_party_names`) -/

/-- Python truthiness of a cell: `None` and the empty string are falsy. -/
def pyTruthyStr : Option String → Bool
  | none => false
  | some s => !(s == "")

/-- `seats_by_party_per_year[year].get(party, 0)`: occurrences of a value in
one year's partition of a column (only truthy values were counted). -/
def seatCount (rows : List Row) (get : Row → Option String) (year : String)
    (v : Option String) : Nat :=
  List.countP (fun r => r.year == year && pyTruthyStr (get r) && get r == v) rows

/-- The per-value rule of `_clean_party_names`: the sentinel passes through;
a truthy value other than `IND` occurring at most 5 times becomes `Others`;
everything else passes through. -/
def cleanValue (cnt : Nat) (v : Option String) : Option String :=
  if v == some "None (Unopposed)" then v
  else if pyTruthyStr v && decide (cnt ≤ 5) && !(v == some "IND") then some "Others"
  else v

/-- `_clean_party_names(df, column)`: rewrite one column in place, counting
occurrences per (year, value) over the whole table. -/
def cleanColumn (rows : List Row) (get : Row → Option String) (set : Row → Option String → Row) :
    List Row :=
  rows.map fun r => set r (cleanValue (seatCount rows get r.year (get r)) (get r))

def cleanPartyOfWinner (rows : List Row) : List Row :=
  cleanColumn rows (fun r => r.party_of_winner) (fun r v => { r with party_of_winner := v })

def cleanRunnerUpParty (rows : List Row) : List Row :=
  cleanColumn rows (fun r => r.runner_up_party) (fun r v => { r with runner_up_party := v })

/-! ## Sorting (`set_index(['year','pc_id']); sort_index()`) -/

/-- Code-point lexicographic order on character lists (Python string `<`). -/
def clLt : List Char → List Char → Bool
  | [], [] => false
  | [], _ :: _ => true
  | _ :: _, [] => false
  | a :: as, b :: bs =>
    if a.val < b.val then true else if b.val < a.val then false else clLt as bs

def strLtB (a b : String) : Bool := clLt a.data b.data

def strLeB (a b : String) : Bool := !(strLtB b a)

/-- Order on the `(year, pc_id)` index. -/
def rowLE (a b : Row) : Bool :=
  if strLtB a.year b.year then true
  else if strLtB b.year a.year then false
  else !(strLtB b.pc_id a.pc_id)

def insertSorted {α : Type} (le : α → α → Bool) (x : α) : List α → List α
  | [] => [x]
  | y :: ys => if le x y then x :: y :: ys else y :: insertSorted le x ys

/-- Deterministic sort (insertion sort; the keys the pipeline sorts are
either distinct or the order among equals is irrelevant to the claims). -/
def sortBy {α : Type} (le : α → α → Bool) : List α → List α
  | [] => []
  | x :: xs => insertSorted le x (sortBy le xs)

/-- `ElectionDataProcessor._prepare_dataframe`: normalize, consolidate the
two party columns, and sort by the `(year, pc_id)` index.  (On an empty
table the Python code returns early; cleaning and sorting are the identity
there, so one formula covers both paths.) -/
def prepareDataframe (data : List Constituency) : List Row :=
  sortBy rowLE (cleanRunnerUpParty (cleanPartyOfWinner (rawRows data)))

/-! ## Spatial artifacts (`DataPoint`, `FIGS`) -/

/-- The `PlotType` enum of src/plot.py. -/
inductive PlotType where
  | MAP_CATEGORICAL
  | MAP_CONTINUOUS
  | MAP_DISCRETE
deriving DecidableEq, Repr

/-- One entry of `plot_configs`. -/
structure PlotConfig where
  id : String
  title : String
  legend_label : String
  type : PlotType
deriving DecidableEq, Repr

/-- `plot_configs` (src/plot.py lines 244-259). -/
def plot_configs : List PlotConfig :=
  [⟨"total_voter_turnout", "Total Voter Turnout", "Voter Turnout (%)", .MAP_CONTINUOUS⟩,
   ⟨"male_voter_turnout", "Male Voter Turnout", "Voter Turnout (%)", .MAP_CONTINUOUS⟩,
   ⟨"female_voter_turnout", "Female Voter Turnout", "Voter Turnout (%)", .MAP_CONTINUOUS⟩,
   ⟨"category", "Seats by Reservation Category", "Category", .MAP_CATEGORICAL⟩,
   ⟨"gender_of_winner", "Winners by Gender", "Gender", .MAP_CATEGORICAL⟩,
   ⟨"category_of_winner", "Winners by Category", "Category", .MAP_CATEGORICAL⟩,
   ⟨"party_of_winner", "Winners by Party", "Party", .MAP_CATEGORICAL⟩,
   ⟨"margin", "Winning Margins", "Winning Margin (%)", .MAP_CONTINUOUS⟩,
   ⟨"vote_share_of_winner", "Vote Share of Winner", "Vote share (%)", .MAP_CONTINUOUS⟩,
   ⟨"nota_vote_share", "NOTA Vote Share", "Vote share (%)", .MAP_CONTINUOUS⟩,
   ⟨"age_of_winner", "Age of Winner", "Age (Years)", .MAP_CONTINUOUS⟩,
   ⟨"runner_up_party", "Runner-Up Party", "Party", .MAP_CATEGORICAL⟩,
   ⟨"true_mandate", "True Mandate (Winner Votes / Total Electors)", "% of Total Electorate", .MAP_CONTINUOUS⟩,
   ⟨"vote_splitting_index", "Vote Consolidation (Top 2 Candidates)", "% of Valid Votes", .MAP_CONTINUOUS⟩]

/-- A cell of the flat table, as the plotting layer sees it. -/
inductive CellValue where
  | str (s : String)
  | fr (v : Frac)
  | nat (n : Nat)
deriving DecidableEq, Repr

/-- Column access by metric id (`year_df[config['id']]`); `none` is a null
cell, and an id that is not a column yields only `none` cells (the code's
`config['id'] not in year_df.columns` test). -/
def getCell (r : Row) (id : String) : Option CellValue :=
  if id = "total_voter_turnout" then some (.fr r.total_voter_turnout)
  else if id = "male_voter_turnout" then some (.fr r.male_voter_turnout)
  else if id = "female_voter_turnout" then some (.fr r.female_voter_turnout)
  else if id = "category" then r.category.map .str
  else if id = "gender_of_winner" then r.gender_of_winner.map .str
  else if id = "category_of_winner" then r.category_of_winner.map .str
  else if id = "party_of_winner" then r.party_of_winner.map .str
  else if id = "margin" then some (.fr r.margin)
  else if id = "vote_share_of_winner" then some (.fr r.vote_share_of_winner)
  else if id = "nota_vote_share" then some (.fr r.nota_vote_share)
  else if id = "age_of_winner" then r.age_of_winner.map .nat
  else if id = "runner_up_party" then r.runner_up_party.map .str
  else if id = "true_mandate" then some (.fr r.true_mandate)
  else if id = "vote_splitting_index" then some (.fr r.vote_splitting_index)
  else none

def cellStr : Option CellValue → Option String
  | some (.str s) => some s
  | _ => none

def cellFrac : Option CellValue → Option Frac
  | some (.fr v) => some v
  | some (.nat n) => some (Frac.ofNat n)
  | _ => none

/-- `year_df[cid].isnull().all()` (also true when the column is absent). -/
def colAllNull (yearRows : List Row) (id : String) : Bool :=
  yearRows.all fun r => (getCell r id).isNone

/-- The data of one generated figure (`DataPoint.plot_fig`): the joined
per-region dataset (`pc_id`, fill value, hover name) and, for categorical
plots, the deterministic ascending category ordering
`sorted(list(set(df[column].dropna())))`. -/
structure GeoArtifact where
  title : String
  legend_label : String
  dataRows : List (String × Option CellValue × String)
  categoryOrder : Option (List String)
deriving DecidableEq, Repr

def plotFig (cfg : PlotConfig) (yearRows : List Row) : GeoArtifact :=
  { title := cfg.title
    legend_label := cfg.legend_label
    dataRows := yearRows.map fun r => (r.pc_id, getCell r cfg.id, r.pc_name)
    categoryOrder :=
      match cfg.type with
      | .MAP_CATEGORICAL =>
          some (sortBy strLeB ((yearRows.filterMap fun r => cellStr (getCell r cfg.id)).dedup))
      | _ => none }

/-- The per-year body of the `FIGS` loop, on the year's filtered rows:
empty when the year has no rows; otherwise one artifact per config whose
column is present and not entirely null (the all-null pair is skipped with
a warning, not an error). -/
def figsForYearRows (yearRows : List Row) : List (String × GeoArtifact) :=
  if yearRows.isEmpty then []
  else plot_configs.filterMap fun cfg =>
    if colAllNull yearRows cfg.id then none
    else some (cfg.id, plotFig cfg yearRows)

/-- `FIGS[year]` for one year of the table. -/
def figsForYear (rows : List Row) (y : String) : List (String × GeoArtifact) :=
  figsForYearRows (rows.filter fun r => r.year == y)

/-- `FIGS`: built only when the table is non-empty; then every year of
`ELECTION_YEARS` gets an entry (possibly empty). -/
def buildFigs (rows : List Row) : List (String × List (String × GeoArtifact)) :=
  if rows.isEmpty then []
  else ELECTION_YEARS.map fun y => (y, figsForYear rows y)

/-- `update_map_graph` (src/app.py): the spatial lookup; `none` models the
"not found" result `{}`. -/
def getSpatial (figs : List (String × List (String × GeoArtifact))) (year id : String) :
    Option GeoArtifact :=
  match figs.lookup year with
  | none => none
  | some m => m.lookup id

/-! ## Trend artifacts (`generate_trend_figures`, `TREND_FIGS`) -/

/-- One trend figure: a per-year mean series for continuous metrics, or a
per-(year, category) seat-count series for categorical metrics. -/
structure TrendArtifact where
  title : String
  contSeries : Option (List (String × Option Frac))
  catSeries : Option (List ((String × String) × Nat))
deriving DecidableEq, Repr

/-- The year labels a trend artifact contains points for. -/
def trendYearLabels (t : TrendArtifact) : List String :=
  ((t.contSeries.getD []).map Prod.fst) ++ ((t.catSeries.getD []).map fun p => p.1.1)

/-- `mean` with pandas semantics: nulls are skipped; an all-null group is a
null point. -/
def meanOpt (cells : List (Option Frac)) : Option Frac :=
  let vs := cells.filterMap id
  if vs.isEmpty then none else some (Frac.divByNat (Frac.sum vs) vs.length)

/-- Distinct group keys in ascending order (pandas `groupby` sorts keys). -/
def groupYears (rows : List Row) : List String :=
  sortBy strLeB ((rows.map fun r => r.year).dedup)

def pairLeB (a b : String × String) : Bool :=
  if strLtB a.1 b.1 then true
  else if strLtB b.1 a.1 then false
  else strLeB a.2 b.2

/-- `generate_trend_figures`: nothing on an empty table; continuous metrics
get a per-year national mean, categorical metrics a per-(year, value) seat
count (pandas drops null group keys); discrete metrics are skipped. -/
def generateTrendFigures (rows : List Row) : List (String × TrendArtifact) :=
  if rows.isEmpty then []
  else plot_configs.filterMap fun cfg =>
    match cfg.type with
    | .MAP_CONTINUOUS =>
        some (cfg.id,
          { title := "Trend: Average " ++ cfg.title ++ " (National)"
            contSeries := some ((groupYears rows).map fun y =>
              (y, meanOpt ((rows.filter fun r => r.year == y).map fun r =>
                    cellFrac (getCell r cfg.id))))
            catSeries := none })
    | .MAP_CATEGORICAL =>
        some (cfg.id,
          { title := "Trend: " ++ cfg.title ++ " Composition"
            contSeries := none
            catSeries := some
              ((sortBy pairLeB ((rows.filterMap fun r =>
                    (cellStr (getCell r cfg.id)).map fun v => (r.year, v)).dedup)).map fun k =>
                (k, (rows.filter fun r =>
                      r.year == k.1 && cellStr (getCell r cfg.id) == some k.2).length)) })
    | .MAP_DISCRETE => none

/-- `update_trend_graph` (src/app.py): trend lookup, `none` is "not found". -/
def getTrend (trends : List (String × TrendArtifact)) (id : String) : Option TrendArtifact :=
  trends.lookup id

/-- The published artifact store: `FIGS` and `TREND_FIGS`. -/
structure ArtifactStore where
  figs : List (String × List (String × GeoArtifact))
  trendFigs : List (String × TrendArtifact)
deriving DecidableEq, Repr

/-- The full pipeline run once at module import: normalize + consolidate,
then build the spatial and trend artifact families. -/
def runPipeline (data : List Constituency) : ArtifactStore :=
  let rows := prepareDataframe data
  { figs := buildFigs rows, trendFigs := generateTrendFigures rows }

/-! ## Raw-field accessors used in the claim statements -/

/-- `Voters.General.Men` of a year record. -/
def menVotersOf (yd : YearData) : Option Nat :=
  (yd.voters.bind Voters.general).bind GeneralCounts.men

/-- `Electors.General.Men` of a year record. -/
def menElectorsOf (yd : YearData) : Option Nat :=
  (yd.electors.bind Electors.general).bind GeneralCounts.men

/-- `Voters.General.Women` of a year record. -/
def womenVotersOf (yd : YearData) : Option Nat :=
  (yd.voters.bind Voters.general).bind GeneralCounts.women

/-- `Electors.General.Women` of a year record. -/
def womenElectorsOf (yd : YearData) : Option Nat :=
  (yd.electors.bind Electors.general).bind GeneralCounts.women

/-- `Voters.Total.Total` of a year record (total votes polled). -/
def totalPolledOf (yd : YearData) : Option Nat :=
  (yd.voters.bind Voters.total).bind TotalCount.total

/-- `Result.Winner.Votes` of a year record. -/
def winnerVotesOf (yd : YearData) : Option Nat :=
  (yd.result.bind ResultData.winner).bind Winner.votes

/-- `Electors.Total.Total` of a year record. -/
def totalElectorsOf (yd : YearData) : Option Nat :=
  (yd.electors.bind Electors.total).bind TotalCount.total

/-- `Votes.'Total Valid Votes Polled'` with the code's `.get(…, 0)` default. -/
def totalValidVotesOf (yd : YearData) : Nat :=
  match yd.votes with
  | some vm => vm.totalValidVotesPolled.getD 0
  | none => 0

/-- `Result.Margin` of a year record. -/
def marginValOf (yd : YearData) : Option Nat :=
  yd.result.bind ResultData.margin

/-- `Result.'Runner-Up'` of a year record. -/
def runnerUpOf (yd : YearData) : Option RunnerUp :=
  yd.result.bind ResultData.runnerUp

/-! ## Structural lemmas about the pipeline -/

theorem insertSorted_perm {α : Type} (le : α → α → Bool) (x : α) (l : List α) :
    List.Perm (insertSorted le x l) (x :: l) := by
  induction l with
  | nil => simp [insertSorted]
  | cons y ys ih =>
    simp only [insertSorted]
    split
    · exact List.Perm.refl _
    · exact (List.Perm.cons y ih).trans (List.Perm.swap x y ys)

theorem sortBy_perm {α : Type} (le : α → α → Bool) (l : List α) :
    List.Perm (sortBy le l) l := by
  induction l with
  | nil => exact List.Perm.refl _
  | cons x xs ih => exact (insertSorted_perm le x (sortBy le xs)).trans (List.Perm.cons x ih)

theorem mem_sortBy {α : Type} {le : α → α → Bool} {x : α} {l : List α} :
    x ∈ sortBy le l ↔ x ∈ l :=
  (sortBy_perm le l).mem_iff

/-- Every row of the final table comes from `buildRow` on some constituency
and some listed year; consolidation only rewrote the two party columns. -/
theorem mem_prepareDataframe {data : List Constituency} {r : Row}
    (hr : r ∈ prepareDataframe data) :
    ∃ pc ∈ data, ∃ y ∈ ELECTION_YEARS, ∃ yd, pc.lookupYear y = some yd ∧
      ∃ v₁ v₂, r = { buildRow pc y yd with party_of_winner := v₁, runner_up_party := v₂ } := by
  rw [prepareDataframe] at hr
  rw [mem_sortBy] at hr
  rw [cleanRunnerUpParty, cleanColumn] at hr
  rcases List.mem_map.1 hr with ⟨r1, hr1, rfl⟩
  rw [cleanPartyOfWinner, cleanColumn] at hr1
  rcases List.mem_map.1 hr1 with ⟨r0, hr0, rfl⟩
  rw [rawRows] at hr0
  rcases List.mem_flatMap.1 hr0 with ⟨pc, hpc, hblock⟩
  rw [pcBlock] at hblock
  rcases List.mem_filterMap.1 hblock with ⟨y, hy, hsome⟩
  rcases Option.map_eq_some'.1 hsome with ⟨yd, hyd, rfl⟩
  exact ⟨pc, hpc, y, hy, yd, hyd, _, _, rfl⟩

/-- Conversely, every constituency with a present, non-empty record for a
listed year contributes its `buildRow` row to the final table, with only the
two party columns possibly rewritten by consolidation (the runner-up column
through `cleanValue` at some count). -/
theorem buildRow_mem_prepareDataframe {data : List Constituency} {pc : Constituency}
    {y : String} {yd : YearData}
    (hpc : pc ∈ data) (hy : y ∈ ELECTION_YEARS) (hyd : pc.lookupYear y = some yd) :
    ∃ v₁ c, { buildRow pc y yd with
        party_of_winner := v₁,
        runner_up_party := cleanValue c (buildRow pc y yd).runner_up_party }
      ∈ prepareDataframe data := by
  have h0 : buildRow pc y yd ∈ rawRows data := by
    rw [rawRows]
    refine List.mem_flatMap.2 ⟨pc, hpc, ?_⟩
    rw [pcBlock]
    refine List.mem_filterMap.2 ⟨y, hy, ?_⟩
    rw [hyd]
    rfl
  refine ⟨cleanValue
      (seatCount (rawRows data) (fun r => r.party_of_winner)
        (buildRow pc y yd).year (buildRow pc y yd).party_of_winner)
      (buildRow pc y yd).party_of_winner,
    seatCount (cleanPartyOfWinner (rawRows data)) (fun r => r.runner_up_party)
      (buildRow pc y yd).year (buildRow pc y yd).runner_up_party, ?_⟩
  rw [prepareDataframe, mem_sortBy, cleanRunnerUpParty, cleanColumn]
  exact List.mem_map_of_mem _ (List.mem_map_of_mem _ h0)

theorem pyOrNat_one_pos (o : Option Nat) : 0 < pyOrNat o 1 := by
  cases o with
  | none => exact Nat.one_pos
  | some n =>
    simp only [pyOrNat]
    split <;> omega

theorem Frac.toRat_mk_one (n : Nat) : (⟨n, 1⟩ : Frac).toRat = n :=
  Frac.toRat_ofNat n

theorem buildRow_male_voter_turnout (pc : Constituency) (y : String) (yd : YearData) :
    (buildRow pc y yd).male_voter_turnout =
      (if 0 < pyOrNat (menElectorsOf yd) 1 ∧ 0 < pyOrNat (menVotersOf yd) 0 then
        Frac.divNat (pyOrNat (menVotersOf yd) 0 * 100) (pyOrNat (menElectorsOf yd) 1)
      else Frac.ofNat 100) := rfl

theorem buildRow_female_voter_turnout (pc : Constituency) (y : String) (yd : YearData) :
    (buildRow pc y yd).female_voter_turnout =
      (if 0 < pyOrNat (womenElectorsOf yd) 1 ∧ 0 < pyOrNat (womenVotersOf yd) 0 then
        Frac.divNat (pyOrNat (womenVotersOf yd) 0 * 100) (pyOrNat (womenElectorsOf yd) 1)
      else Frac.ofNat 100) := rfl

/-- C1, corrected.  The claim is right that both counts present-and-positive
gives the ratio and that a zero/absent voter count gives 100; but when the
voter count is positive and the elector count is absent (or present but 0),
the code divides by the internal default elector count 1 instead of using
the claimed default 100.  Formally: the turnout is the ratio of the voter
count (`or 0`) to the elector count (`or 1`) whenever the voter count is
positive, and 100 exactly when the voter count is zero or absent
(symmetrically for the female counts). -/
theorem C1_turnout_formula (data : List Constituency) (r : Row)
    (hr : r ∈ prepareDataframe data) :
    ∃ pc ∈ data, ∃ y ∈ ELECTION_YEARS, ∃ yd, pc.lookupYear y = some yd ∧
      r.year = y ∧ r.pc_id = pc.id ∧
      ((pyOrNat (menVotersOf yd) 0 = 0 → r.male_voter_turnout.toRat = 100) ∧
       (0 < pyOrNat (menVotersOf yd) 0 →
         r.male_voter_turnout.toRat =
           (pyOrNat (menVotersOf yd) 0 * 100 : ℚ) / (pyOrNat (menElectorsOf yd) 1 : ℚ))) ∧
      ((pyOrNat (womenVotersOf yd) 0 = 0 → r.female_voter_turnout.toRat = 100) ∧
       (0 < pyOrNat (womenVotersOf yd) 0 →
         r.female_voter_turnout.toRat =
           (pyOrNat (womenVotersOf yd) 0 * 100 : ℚ) / (pyOrNat (womenElectorsOf yd) 1 : ℚ))) := by
  obtain ⟨pc, hpc, y, hy, yd, hyd, v₁, v₂, rfl⟩ := mem_prepareDataframe hr
  refine ⟨pc, hpc, y, hy, yd, hyd, rfl, rfl, ⟨?_, ?_⟩, ⟨?_, ?_⟩⟩
  · intro h0
    show (buildRow pc y yd).male_voter_turnout.toRat = 100
    rw [buildRow_male_voter_turnout, if_neg (by simp [h0]), Frac.toRat_ofNat]
    norm_num
  · intro hpos
    show (buildRow pc y yd).male_voter_turnout.toRat = _
    rw [buildRow_male_voter_turnout, if_pos ⟨pyOrNat_one_pos _, hpos⟩,
      Frac.toRat_divNat _ _ (Nat.pos_iff_ne_zero.1 (pyOrNat_one_pos _))]
    push_cast
    ring
  · intro h0
    show (buildRow pc y yd).female_voter_turnout.toRat = 100
    rw [buildRow_female_voter_turnout, if_neg (by simp [h0]), Frac.toRat_ofNat]
    norm_num
  · intro hpos
    show (buildRow pc y yd).female_voter_turnout.toRat = _
    rw [buildRow_female_voter_turnout, if_pos ⟨pyOrNat_one_pos _, hpos⟩,
      Frac.toRat_divNat _ _ (Nat.pos_iff_ne_zero.1 (pyOrNat_one_pos _))]
    push_cast
    ring

/-- A year record with `Voters.General.Men = 50` and no `Electors` block. -/
def c1yd : YearData :=
  { category := none, result := none, candidates := none,
    voters := some ⟨some ⟨some 50, none⟩, none, none⟩,
    electors := none, votes := none }

def c1pc : Constituency := ⟨"C1PC", "CexOne", [("2009", c1yd)]⟩

/-- C1, counterexample: with a positive male voter count (50) and an absent
male elector count, the produced row's male_voter_turnout is 5000 (division
by the internal default 1), not the default 100 the claim requires for
"every other case" than both counts present and positive. -/
theorem C1_counterexample :
    ((prepareDataframe [c1pc]).map fun r => r.male_voter_turnout.toRat) = [5000] ∧
    menElectorsOf c1yd = none ∧ menVotersOf c1yd = some 50 ∧ (5000 : ℚ) ≠ 100 := by
  have h : ((prepareDataframe [c1pc]).map fun r => r.male_voter_turnout) = [⟨5000, 1⟩] := by
    decide
  refine ⟨?_, by decide, by decide, by norm_num⟩
  have h2 : ((prepareDataframe [c1pc]).map fun r => r.male_voter_turnout.toRat) =
      ((prepareDataframe [c1pc]).map fun r => r.male_voter_turnout).map Frac.toRat := by
    rw [List.map_map]
    rfl
  rw [h2, h]
  simp only [List.map_cons, List.map_nil, Frac.toRat_mk_one]
  norm_num

/-- A record with male voters 50 / male electors 200 and female voters 30
with the female elector count absent. -/
def w1yd : YearData :=
  { category := none, result := none, candidates := none,
    voters := some ⟨some ⟨some 50, some 30⟩, none, none⟩,
    electors := some ⟨some ⟨some 200, none⟩, none⟩, votes := none }

def w1pc : Constituency := ⟨"W1PC", "WitOne", [("2009", w1yd)]⟩

def w1row : Row :=
  ⟨"2009", "W1PC", "WitOne", none, ⟨100, 1⟩, ⟨25, 1⟩, ⟨3000, 1⟩, none, ⟨100, 1⟩,
   ⟨100, 1⟩, none, none, ⟨0, 1⟩, none, some "None (Unopposed)", ⟨0, 1⟩, ⟨100, 1⟩⟩

/-- Witness for `C1_turnout_formula` at a concrete input (male turnout
50·100/200 = 25). -/
theorem C1_turnout_formula_witness :
    w1row ∈ prepareDataframe [w1pc] ∧
    (∃ pc ∈ [w1pc], ∃ y ∈ ELECTION_YEARS, ∃ yd, pc.lookupYear y = some yd ∧
      w1row.year = y ∧ w1row.pc_id = pc.id ∧
      ((pyOrNat (menVotersOf yd) 0 = 0 → w1row.male_voter_turnout.toRat = 100) ∧
       (0 < pyOrNat (menVotersOf yd) 0 →
         w1row.male_voter_turnout.toRat =
           (pyOrNat (menVotersOf yd) 0 * 100 : ℚ) / (pyOrNat (menElectorsOf yd) 1 : ℚ))) ∧
      ((pyOrNat (womenVotersOf yd) 0 = 0 → w1row.female_voter_turnout.toRat = 100) ∧
       (0 < pyOrNat (womenVotersOf yd) 0 →
         w1row.female_voter_turnout.toRat =
           (pyOrNat (womenVotersOf yd) 0 * 100 : ℚ) / (pyOrNat (womenElectorsOf yd) 1 : ℚ)))) :=
  ⟨by decide, C1_turnout_formula [w1pc] w1row (by decide)⟩

theorem buildRow_true_mandate (pc : Constituency) (y : String) (yd : YearData) :
    (buildRow pc y yd).true_mandate =
      (if 0 < (totalElectorsOf yd).getD 1 ∧ 0 < pyOrNat (winnerVotesOf yd) 0 then
        Frac.divNat (pyOrNat (winnerVotesOf yd) 0 * 100) ((totalElectorsOf yd).getD 1)
      else Frac.ofNat 0) := rfl

/-- C2, corrected.  `true_mandate` is the ratio `winner_votes·100 /
total_electors` under the positivity guards and 0 otherwise — but
`total_electors` is `Electors.Total.Total` **defaulted to 1 when the field
is absent** (`.get('Total', 1)`), so an absent field with positive winner
votes yields `winner_votes·100`, not the claimed default 0.  The default 0
does apply when winner votes are 0/absent, or when the field is present and
equal to 0. -/
theorem C2_true_mandate_formula (data : List Constituency) (r : Row)
    (hr : r ∈ prepareDataframe data) :
    ∃ pc ∈ data, ∃ y ∈ ELECTION_YEARS, ∃ yd, pc.lookupYear y = some yd ∧
      r.year = y ∧ r.pc_id = pc.id ∧
      (0 < (totalElectorsOf yd).getD 1 ∧ 0 < pyOrNat (winnerVotesOf yd) 0 →
        r.true_mandate.toRat =
          (pyOrNat (winnerVotesOf yd) 0 * 100 : ℚ) / ((totalElectorsOf yd).getD 1 : ℚ)) ∧
      (¬(0 < (totalElectorsOf yd).getD 1 ∧ 0 < pyOrNat (winnerVotesOf yd) 0) →
        r.true_mandate.toRat = 0) := by
  obtain ⟨pc, hpc, y, hy, yd, hyd, v₁, v₂, rfl⟩ := mem_prepareDataframe hr
  refine ⟨pc, hpc, y, hy, yd, hyd, rfl, rfl, ?_, ?_⟩
  · intro hcond
    show (buildRow pc y yd).true_mandate.toRat = _
    rw [buildRow_true_mandate, if_pos hcond,
      Frac.toRat_divNat _ _ (Nat.pos_iff_ne_zero.1 hcond.1)]
    push_cast
    ring
  · intro hcond
    show (buildRow pc y yd).true_mandate.toRat = 0
    rw [buildRow_true_mandate, if_neg hcond, Frac.toRat_ofNat]
    norm_num

/-- A year record with winner votes 500 and no `Electors` block at all. -/
def c2yd : YearData :=
  { category := none,
    result := some ⟨some ⟨some "AAA", some 500, none⟩, none, none⟩,
    candidates := none, voters := none, electors := none, votes := none }

def c2pc : Constituency := ⟨"C2PC", "CexTwo", [("2009", c2yd)]⟩

/-- C2, counterexample: with `Electors.Total.Total` absent and winner votes
500, the produced row's true_mandate is 50000 (division by the internal
default elector count 1), not the default 0 the claim requires when that
field is absent. -/
theorem C2_counterexample :
    ((prepareDataframe [c2pc]).map fun r => r.true_mandate.toRat) = [50000] ∧
    totalElectorsOf c2yd = none ∧ winnerVotesOf c2yd = some 500 ∧ (50000 : ℚ) ≠ 0 := by
  have h : ((prepareDataframe [c2pc]).map fun r => r.true_mandate) = [⟨50000, 1⟩] := by
    decide
  refine ⟨?_, by decide, by decide, by norm_num⟩
  have h2 : ((prepareDataframe [c2pc]).map fun r => r.true_mandate.toRat) =
      ((prepareDataframe [c2pc]).map fun r => r.true_mandate).map Frac.toRat := by
    rw [List.map_map]
    rfl
  rw [h2, h]
  simp only [List.map_cons, List.map_nil, Frac.toRat_mk_one]
  norm_num

/-- A record with winner votes 500 and `Electors.Total.Total = 2000`. -/
def w2yd : YearData :=
  { category := none,
    result := some ⟨some ⟨some "AAA", some 500, none⟩, none, none⟩,
    candidates := none, voters := none,
    electors := some ⟨none, some ⟨some 2000⟩⟩, votes := none }

def w2pc : Constituency := ⟨"W2PC", "WitTwo", [("2009", w2yd)]⟩

def w2row : Row :=
  ⟨"2009", "W2PC", "WitTwo", none, ⟨100, 1⟩, ⟨100, 1⟩, ⟨100, 1⟩, some "Others", ⟨100, 1⟩,
   ⟨100, 1⟩, none, none, ⟨0, 1⟩, none, some "None (Unopposed)", ⟨25, 1⟩, ⟨100, 1⟩⟩

/-- Witness for `C2_true_mandate_formula` at a concrete input (true mandate
500·100/2000 = 25). -/
theorem C2_true_mandate_formula_witness :
    w2row ∈ prepareDataframe [w2pc] ∧
    (∃ pc ∈ [w2pc], ∃ y ∈ ELECTION_YEARS, ∃ yd, pc.lookupYear y = some yd ∧
      w2row.year = y ∧ w2row.pc_id = pc.id ∧
      (0 < (totalElectorsOf yd).getD 1 ∧ 0 < pyOrNat (winnerVotesOf yd) 0 →
        w2row.true_mandate.toRat =
          (pyOrNat (winnerVotesOf yd) 0 * 100 : ℚ) / ((totalElectorsOf yd).getD 1 : ℚ)) ∧
      (¬(0 < (totalElectorsOf yd).getD 1 ∧ 0 < pyOrNat (winnerVotesOf yd) 0) →
        w2row.true_mandate.toRat = 0)) :=
  ⟨by decide, C2_true_mandate_formula [w2pc] w2row (by decide)⟩

theorem buildRow_margin (pc : Constituency) (y : String) (yd : YearData) :
    (buildRow pc y yd).margin =
      (if 0 < pyOrNat (totalPolledOf yd) 0 then
        Frac.divNat (pyOrNat (marginValOf yd) 0 * 100) (pyOrNat (totalPolledOf yd) 0)
      else Frac.ofNat 100) := rfl

theorem buildRow_vote_share_of_winner (pc : Constituency) (y : String) (yd : YearData) :
    (buildRow pc y yd).vote_share_of_winner =
      (if 0 < pyOrNat (totalPolledOf yd) 0 then
        Frac.divNat (pyOrNat (winnerVotesOf yd) 0 * 100) (pyOrNat (totalPolledOf yd) 0)
      else Frac.ofNat 100) := rfl

theorem buildRow_vote_splitting_index (pc : Constituency) (y : String) (yd : YearData) :
    (buildRow pc y yd).vote_splitting_index =
      (if 0 < totalValidVotesOf yd then
        Frac.divNat
          ((pyOrNat (winnerVotesOf yd) 0 +
            (match runnerUpOf yd with
             | some ru => pyOrNat ru.votes 0
             | none => 0)) * 100)
          (totalValidVotesOf yd)
      else Frac.ofNat 100) := rfl

/-- C3, corrected.  When total votes polled (`Voters.Total.Total`, `or 0`)
is 0 or absent, margin and vote_share_of_winner are indeed 100 — but
vote_splitting_index is computed over a different denominator,
`Votes.'Total Valid Votes Polled'`, and defaults to 100 exactly when *that*
is 0 or absent, not when total votes polled is. -/
theorem C3_zero_polled_defaults (data : List Constituency) (r : Row)
    (hr : r ∈ prepareDataframe data) :
    ∃ pc ∈ data, ∃ y ∈ ELECTION_YEARS, ∃ yd, pc.lookupYear y = some yd ∧
      r.year = y ∧ r.pc_id = pc.id ∧
      (pyOrNat (totalPolledOf yd) 0 = 0 →
        r.margin.toRat = 100 ∧ r.vote_share_of_winner.toRat = 100) ∧
      (totalValidVotesOf yd = 0 → r.vote_splitting_index.toRat = 100) := by
  obtain ⟨pc, hpc, y, hy, yd, hyd, v₁, v₂, rfl⟩ := mem_prepareDataframe hr
  refine ⟨pc, hpc, y, hy, yd, hyd, rfl, rfl, ?_, ?_⟩
  · intro h0
    constructor
    · show (buildRow pc y yd).margin.toRat = 100
      rw [buildRow_margin, if_neg (by omega), Frac.toRat_ofNat]
      norm_num
    · show (buildRow pc y yd).vote_share_of_winner.toRat = 100
      rw [buildRow_vote_share_of_winner, if_neg (by omega), Frac.toRat_ofNat]
      norm_num
  · intro h0
    show (buildRow pc y yd).vote_splitting_index.toRat = 100
    rw [buildRow_vote_splitting_index, if_neg (by omega), Frac.toRat_ofNat]
    norm_num

/-- A record with no `Voters` block (total polled 0) but 1000 total valid
votes, winner 600 and runner-up 300. -/
def c3yd : YearData :=
  { category := none,
    result := some ⟨some ⟨some "AAA", some 600, none⟩, some ⟨some "BBB", some 300⟩, some 300⟩,
    candidates := none, voters := none, electors := none,
    votes := some ⟨some 1000⟩ }

def c3pc : Constituency := ⟨"C3PC", "CexThree", [("2009", c3yd)]⟩

def c3row : Row :=
  ⟨"2009", "C3PC", "CexThree", none, ⟨100, 1⟩, ⟨100, 1⟩, ⟨100, 1⟩, some "Others", ⟨100, 1⟩,
   ⟨100, 1⟩, none, none, ⟨0, 1⟩, none, some "Others", ⟨60000, 1⟩, ⟨90, 1⟩⟩

/-- C3, counterexample: a row whose total votes polled is 0 but whose
vote_splitting_index is 90 — (600+300)·100/1000 over the *valid votes*
denominator — refuting the claimed `vote_splitting_index = 100`. -/
theorem C3_counterexample :
    prepareDataframe [c3pc] = [c3row] ∧
    pyOrNat (totalPolledOf c3yd) 0 = 0 ∧
    c3row.margin.toRat = 100 ∧ c3row.vote_share_of_winner.toRat = 100 ∧
    c3row.vote_splitting_index.toRat = 90 ∧ (90 : ℚ) ≠ 100 := by
  refine ⟨by decide, by decide, ?_, ?_, ?_, by norm_num⟩
  · rw [show c3row.margin = (⟨100, 1⟩ : Frac) from rfl, Frac.toRat_mk_one]
    norm_num
  · rw [show c3row.vote_share_of_winner = (⟨100, 1⟩ : Frac) from rfl, Frac.toRat_mk_one]
    norm_num
  · rw [show c3row.vote_splitting_index = (⟨90, 1⟩ : Frac) from rfl, Frac.toRat_mk_one]
    norm_num

/-- A record with neither a `Voters` block nor a `Votes` block: all three
metrics take their 100 default. -/
def w3yd : YearData :=
  { category := none,
    result := some ⟨some ⟨some "AAA", some 600, none⟩, none, some 300⟩,
    candidates := none, voters := none, electors := none, votes := none }

def w3pc : Constituency := ⟨"W3PC", "WitThree", [("2019", w3yd)]⟩

def w3row : Row :=
  ⟨"2019", "W3PC", "WitThree", none, ⟨100, 1⟩, ⟨100, 1⟩, ⟨100, 1⟩, some "Others", ⟨100, 1⟩,
   ⟨100, 1⟩, none, none, ⟨0, 1⟩, none, some "None (Unopposed)", ⟨60000, 1⟩, ⟨100, 1⟩⟩

/-- Witness for `C3_zero_polled_defaults` at a concrete input. -/
theorem C3_zero_polled_defaults_witness :
    w3row ∈ prepareDataframe [w3pc] ∧
    (∃ pc ∈ [w3pc], ∃ y ∈ ELECTION_YEARS, ∃ yd, pc.lookupYear y = some yd ∧
      w3row.year = y ∧ w3row.pc_id = pc.id ∧
      (pyOrNat (totalPolledOf yd) 0 = 0 →
        w3row.margin.toRat = 100 ∧ w3row.vote_share_of_winner.toRat = 100) ∧
      (totalValidVotesOf yd = 0 → w3row.vote_splitting_index.toRat = 100)) :=
  ⟨by decide, C3_zero_polled_defaults [w3pc] w3row (by decide)⟩

/-- Occurrences of a row's value within its own (year, column) partition —
the count the spec's consolidation contract speaks about (no truthiness
restriction: plain value equality within the year). -/
def specYearCount (rows : List Row) (get : Row → Option String) (r : Row) : Nat :=
  List.countP (fun r2 => r2.year == r.year && get r2 == get r) rows

/-- Modelled from the spec's consolidation contract, as amended: a non-null,
non-empty value that is neither the sentinel `"None (Unopposed)"` nor
`"IND"` and occurs at most 5 times in its year partition becomes
`"Others"`; everything else passes through. -/
def specClean (cnt : Nat) : Option String → Option String
  | none => none
  | some s =>
    if s = "None (Unopposed)" ∨ s = "IND" ∨ s = "" ∨ 5 < cnt then some s else some "Others"

theorem cleanValue_sentinel (c : Nat) :
    cleanValue c (some "None (Unopposed)") = some "None (Unopposed)" := by
  rw [cleanValue]
  rw [if_pos (by decide :
    ((some "None (Unopposed)" : Option String) == some "None (Unopposed)") = true)]

theorem cleanValue_ind (c : Nat) : cleanValue c (some "IND") = some "IND" := by
  rw [cleanValue]
  rw [if_neg (by decide :
    ¬(((some "IND" : Option String) == some "None (Unopposed)") = true))]
  rw [if_neg ?hc]
  case hc =>
    intro hcon
    rw [show ((some "IND" : Option String) == some "IND") = true from by decide] at hcon
    simp at hcon

theorem cleanValue_empty (c : Nat) : cleanValue c (some "") = some "" := by
  rw [cleanValue]
  rw [if_neg (by decide :
    ¬(((some "" : Option String) == some "None (Unopposed)") = true))]
  rw [if_neg ?hc]
  case hc =>
    intro hcon
    rw [show pyTruthyStr (some "") = false from by decide] at hcon
    simp at hcon

theorem cleanValue_plain (c : Nat) (s : String)
    (hsent : s ≠ "None (Unopposed)") (hind : s ≠ "IND") (hemp : s ≠ "") :
    cleanValue c (some s) = if c ≤ 5 then some "Others" else some s := by
  have hs1 : ((some s : Option String) == some "None (Unopposed)") = false :=
    beq_eq_false_iff_ne.2 (fun hc => hsent (Option.some.inj hc))
  have hs2 : ((some s : Option String) == some "IND") = false :=
    beq_eq_false_iff_ne.2 (fun hc => hind (Option.some.inj hc))
  have hs3 : pyTruthyStr (some s) = true := by
    show (!(s == "")) = true
    rw [beq_eq_false_iff_ne.2 hemp]
    rfl
  rw [cleanValue, if_neg (by rw [hs1]; exact Bool.false_ne_true)]
  by_cases hle : c ≤ 5
  · have hcond : (pyTruthyStr (some s) && decide (c ≤ 5) && !(some s == some "IND")) = true := by
      rw [hs3, hs2, decide_eq_true hle]
      rfl
    rw [if_pos hcond, if_pos hle]
  · have hcond : ¬((pyTruthyStr (some s) && decide (c ≤ 5) && !(some s == some "IND")) = true) := by
      rw [decide_eq_false hle]
      simp
    rw [if_neg hcond, if_neg hle]

theorem specClean_keep (cnt : Nat) (s : String)
    (h : s = "None (Unopposed)" ∨ s = "IND" ∨ s = "" ∨ 5 < cnt) :
    specClean cnt (some s) = some s := by
  show (if s = "None (Unopposed)" ∨ s = "IND" ∨ s = "" ∨ 5 < cnt then
    some s else some "Others") = some s
  rw [if_pos h]

theorem specClean_others (cnt : Nat) (s : String)
    (h : ¬(s = "None (Unopposed)" ∨ s = "IND" ∨ s = "" ∨ 5 < cnt)) :
    specClean cnt (some s) = some "Others" := by
  show (if s = "None (Unopposed)" ∨ s = "IND" ∨ s = "" ∨ 5 < cnt then
    some s else some "Others") = some "Others"
  rw [if_neg h]

theorem cleanValue_eq_specClean (rows : List Row) (get : Row → Option String) (r : Row) :
    cleanValue (seatCount rows get r.year (get r)) (get r) =
      specClean (specYearCount rows get r) (get r) := by
  rcases hv : get r with _ | s
  · rfl
  by_cases hsent : s = "None (Unopposed)"
  · subst hsent
    rw [cleanValue_sentinel, specClean_keep _ _ (Or.inl rfl)]
  by_cases hind : s = "IND"
  · subst hind
    rw [cleanValue_ind, specClean_keep _ _ (Or.inr (Or.inl rfl))]
  by_cases hemp : s = ""
  · subst hemp
    rw [cleanValue_empty, specClean_keep _ _ (Or.inr (Or.inr (Or.inl rfl)))]
  have hcnt : seatCount rows get r.year (some s) = specYearCount rows get r := by
    rw [seatCount, specYearCount, hv]
    apply List.countP_congr
    intro r2 _
    cases hq : (get r2 == some s) with
    | false => simp [hq]
    | true =>
      have hg : get r2 = some s := beq_iff_eq.1 hq
      have ht : pyTruthyStr (get r2) = true := by
        rw [hg]
        show (!(s == "")) = true
        rw [beq_eq_false_iff_ne.2 hemp]
        rfl
      simp [hq, ht]
  rw [cleanValue_plain _ s hsent hind hemp, hcnt]
  by_cases hle : specYearCount rows get r ≤ 5
  · rw [if_pos hle, specClean_others _ _ ?hd]
    case hd =>
      rintro (h | h | h | h)
      · exact hsent h
      · exact hind h
      · exact hemp h
      · omega
  · rw [if_neg hle, specClean_keep _ _ (Or.inr (Or.inr (Or.inr (by omega))))]

/-- The spec's consolidation of the `party_of_winner` column, one row at a
time (the amended rule applied with that row's own (year, value) count). -/
def specCleanPOW (rows : List Row) (r : Row) : Row :=
  { r with party_of_winner :=
      specClean (specYearCount rows Row.party_of_winner r) r.party_of_winner }

/-- The spec's consolidation of the `runner_up_party` column, one row at a
time. -/
def specCleanRUP (rows : List Row) (r : Row) : Row :=
  { r with runner_up_party :=
      specClean (specYearCount rows Row.runner_up_party r) r.runner_up_party }

/-- C4, corrected.  The consolidation rule is exactly the spec's, except
that a present-but-empty-string value is also passed through (Python
truthiness), so "non-null" must be read as "non-null and non-empty".
Both columns follow the rule with counts taken per (year, value) partition
of their own column over the original table: counts never leak across years
(the count predicate fixes the row's own year), and consolidating
`party_of_winner` first does not change the counts used for
`runner_up_party` (the second equation's counts are over the original
`rows`). -/
theorem C4_consolidation_rule (rows : List Row) :
    cleanPartyOfWinner rows = rows.map (specCleanPOW rows) ∧
    cleanRunnerUpParty (cleanPartyOfWinner rows) =
      (cleanPartyOfWinner rows).map (specCleanRUP rows) := by
  constructor
  · rw [cleanPartyOfWinner, cleanColumn]
    apply List.map_congr_left
    intro r _
    exact congrArg (fun v => { r with party_of_winner := v })
      (cleanValue_eq_specClean rows (fun x => x.party_of_winner) r)
  · rw [cleanRunnerUpParty, cleanColumn]
    apply List.map_congr_left
    intro r1 _
    refine congrArg (fun v => { r1 with runner_up_party := v }) ?_
    rw [cleanValue_eq_specClean (cleanPartyOfWinner rows) (fun x => x.runner_up_party) r1]
    show specClean (specYearCount (cleanPartyOfWinner rows) Row.runner_up_party r1) _ = _
    have hcnt : specYearCount (cleanPartyOfWinner rows) Row.runner_up_party r1 =
        specYearCount rows Row.runner_up_party r1 := by
      rw [specYearCount, specYearCount, cleanPartyOfWinner, cleanColumn, List.countP_map]
      exact List.countP_congr (fun a _ => Iff.rfl)
    rw [hcnt]

/-- A record whose winner's declared party is the empty string. -/
def c4yd : YearData :=
  { category := none,
    result := some ⟨some ⟨some "", none, none⟩, none, none⟩,
    candidates := none, voters := none, electors := none, votes := none }

def c4pc : Constituency := ⟨"C4PC", "CexFour", [("2009", c4yd)]⟩

/-- C4, counterexample: the value `""` is non-null, differs from `"IND"`
and from the sentinel, and occurs exactly once (≤ 5) in its year partition,
yet after consolidation it is still `""` and not `"Others"` (Python's
`if party:` treats the empty string as falsy). -/
theorem C4_counterexample :
    ((prepareDataframe [c4pc]).map fun r => r.party_of_winner) = [some ""] ∧
    List.countP (fun r2 => r2.year == "2009" && r2.party_of_winner == some "")
      (rawRows [c4pc]) = 1 ∧
    (some "" : Option String) ≠ none ∧ "" ≠ "IND" ∧ "" ≠ "None (Unopposed)" ∧
    (some "" : Option String) ≠ some "Others" := by decide

theorem buildRow_runner_up_party (pc : Constituency) (y : String) (yd : YearData) :
    (buildRow pc y yd).runner_up_party =
      (match runnerUpOf yd with
       | some ru => ru.party
       | none => some "None (Unopposed)") := rfl

/-- C5, confirmed.  A year record without a `Runner-Up` entry yields the
sentinel `"None (Unopposed)"` in `runner_up_party`, the consolidation rule
maps the sentinel to itself at every occurrence count, and the final table
contains the row for that constituency-year still carrying the sentinel. -/
theorem C5_unopposed_sentinel (data : List Constituency) (pc : Constituency)
    (y : String) (yd : YearData)
    (hpc : pc ∈ data) (hy : y ∈ ELECTION_YEARS) (hyd : pc.lookupYear y = some yd)
    (hnr : runnerUpOf yd = none) :
    (buildRow pc y yd).runner_up_party = some "None (Unopposed)" ∧
    (∀ c, cleanValue c (some "None (Unopposed)") = some "None (Unopposed)") ∧
    ∃ r ∈ prepareDataframe data, r.year = y ∧ r.pc_id = pc.id ∧
      r.runner_up_party = some "None (Unopposed)" := by
  have hb : (buildRow pc y yd).runner_up_party = some "None (Unopposed)" := by
    rw [buildRow_runner_up_party, hnr]
  refine ⟨hb, cleanValue_sentinel, ?_⟩
  obtain ⟨v₁, c, hmem⟩ := buildRow_mem_prepareDataframe hpc hy hyd
  refine ⟨_, hmem, rfl, rfl, ?_⟩
  show cleanValue c (buildRow pc y yd).runner_up_party = some "None (Unopposed)"
  rw [hb]
  exact cleanValue_sentinel c

/-- An unopposed record (winner present, no runner-up). -/
def w5yd : YearData :=
  { category := none,
    result := some ⟨some ⟨some "ZZZ", some 10, none⟩, none, none⟩,
    candidates := none, voters := none, electors := none, votes := none }

def w5pc : Constituency := ⟨"W5PC", "WitFive", [("2024", w5yd)]⟩

/-- Witness for `C5_unopposed_sentinel` at a concrete input. -/
theorem C5_unopposed_sentinel_witness :
    (w5pc ∈ [w5pc] ∧ "2024" ∈ ELECTION_YEARS ∧ w5pc.lookupYear "2024" = some w5yd ∧
      runnerUpOf w5yd = none) ∧
    ((buildRow w5pc "2024" w5yd).runner_up_party = some "None (Unopposed)" ∧
     (∀ c, cleanValue c (some "None (Unopposed)") = some "None (Unopposed)") ∧
     ∃ r ∈ prepareDataframe [w5pc], r.year = "2024" ∧ r.pc_id = w5pc.id ∧
       r.runner_up_party = some "None (Unopposed)") :=
  ⟨⟨by decide, by decide, by decide, by decide⟩,
   C5_unopposed_sentinel [w5pc] w5pc "2024" w5yd (by decide) (by decide) (by decide) (by decide)⟩

/-- The "no usable winner lookup" condition of C7: the winner's declared
name (`Result.Winner.Candidates`) or the candidate list is missing or
malformed, or no candidate entry's name equals the declared name. -/
def noWinnerMatch (yd : YearData) : Bool :=
  match (yd.result.bind ResultData.winner).bind Winner.candidates, yd.candidates with
  | some w, some cs => cs.all fun c => !(c.candidateName == some w)
  | _, _ => true

theorem findWinnerDetail_eq_none {α : Type} (w : String) (detailKey : Candidate → Option α)
    (cs : List Candidate) (h : (cs.all fun c => !(c.candidateName == some w)) = true) :
    findWinnerDetail w detailKey cs = none := by
  induction cs with
  | nil => rfl
  | cons c rest ih =>
    rw [List.all_cons] at h
    rw [Bool.and_eq_true] at h
    obtain ⟨h1, h2⟩ := h
    rw [findWinnerDetail]
    cases hc : c.candidateName with
    | none => rfl
    | some n =>
      show (if n = w then detailKey c else findWinnerDetail w detailKey rest) = none
      rw [if_neg ?hn]
      · exact ih h2
      case hn =>
        intro heq
        rw [hc, heq] at h1
        simp at h1

theorem getCandidateDetail_eq_none {α : Type} (pc : Constituency) (y : String) (yd : YearData)
    (hyd : pc.lookupYear y = some yd) (h : noWinnerMatch yd = true)
    (detailKey : Candidate → Option α) :
    getCandidateDetail pc y detailKey = none := by
  unfold getCandidateDetail
  rw [hyd]
  show (match (yd.result.bind ResultData.winner).bind Winner.candidates with
    | none => none
    | some winnerName =>
      match yd.candidates with
      | none => none
      | some cs => findWinnerDetail winnerName detailKey cs) = none
  cases hw : (yd.result.bind ResultData.winner).bind Winner.candidates with
  | none => rfl
  | some w =>
    cases hcs : yd.candidates with
    | none => rfl
    | some cs =>
      unfold noWinnerMatch at h
      rw [hw, hcs] at h
      exact findWinnerDetail_eq_none w detailKey cs h

theorem buildRow_gender_of_winner (pc : Constituency) (y : String) (yd : YearData) :
    (buildRow pc y yd).gender_of_winner = getCandidateDetail pc y Candidate.gender := rfl

theorem buildRow_category_of_winner (pc : Constituency) (y : String) (yd : YearData) :
    (buildRow pc y yd).category_of_winner = getCandidateDetail pc y Candidate.category := rfl

theorem buildRow_age_of_winner (pc : Constituency) (y : String) (yd : YearData) :
    (buildRow pc y yd).age_of_winner = getCandidateDetail pc y Candidate.age := rfl

/-- C7, confirmed.  When the winner's declared name matches no entry of the
candidate list, or the `Result`/`Winner`/`Candidates` structure is missing
or malformed, all three looked-up winner details are null, both on the
produced row and on the corresponding row of the final table.  The lookup
is a total function in this embedding, mirroring that the Python helper
catches `KeyError`/`TypeError`/`AttributeError` and never raises. -/
theorem C7_winner_details_null (data : List Constituency) (pc : Constituency)
    (y : String) (yd : YearData)
    (hpc : pc ∈ data) (hy : y ∈ ELECTION_YEARS) (hyd : pc.lookupYear y = some yd)
    (h : noWinnerMatch yd = true) :
    (buildRow pc y yd).gender_of_winner = none ∧
    (buildRow pc y yd).category_of_winner = none ∧
    (buildRow pc y yd).age_of_winner = none ∧
    ∃ r ∈ prepareDataframe data, r.year = y ∧ r.pc_id = pc.id ∧
      r.gender_of_winner = none ∧ r.category_of_winner = none ∧ r.age_of_winner = none := by
  have hg : (buildRow pc y yd).gender_of_winner = none := by
    rw [buildRow_gender_of_winner]
    exact getCandidateDetail_eq_none pc y yd hyd h Candidate.gender
  have hcat : (buildRow pc y yd).category_of_winner = none := by
    rw [buildRow_category_of_winner]
    exact getCandidateDetail_eq_none pc y yd hyd h Candidate.category
  have ha : (buildRow pc y yd).age_of_winner = none := by
    rw [buildRow_age_of_winner]
    exact getCandidateDetail_eq_none pc y yd hyd h Candidate.age
  refine ⟨hg, hcat, ha, ?_⟩
  obtain ⟨v₁, c, hmem⟩ := buildRow_mem_prepareDataframe hpc hy hyd
  exact ⟨_, hmem, rfl, rfl, hg, hcat, ha⟩

/-- A record whose declared winner name ("Mister X") matches no candidate
entry ("Mr X"). -/
def w7yd : YearData :=
  { category := none,
    result := some ⟨some ⟨some "AAA", some 500, some "Mister X"⟩, none, none⟩,
    candidates := some [⟨some "Mr X", some "AAA", some 500, some "M", some 51, some "GEN", none⟩],
    voters := none, electors := none, votes := none }

def w7pc : Constituency := ⟨"W7PC", "WitSeven", [("2009", w7yd)]⟩

/-- Witness for `C7_winner_details_null` at a concrete input. -/
theorem C7_winner_details_null_witness :
    (w7pc ∈ [w7pc] ∧ "2009" ∈ ELECTION_YEARS ∧ w7pc.lookupYear "2009" = some w7yd ∧
      noWinnerMatch w7yd = true) ∧
    ((buildRow w7pc "2009" w7yd).gender_of_winner = none ∧
     (buildRow w7pc "2009" w7yd).category_of_winner = none ∧
     (buildRow w7pc "2009" w7yd).age_of_winner = none ∧
     ∃ r ∈ prepareDataframe [w7pc], r.year = "2009" ∧ r.pc_id = w7pc.id ∧
       r.gender_of_winner = none ∧ r.category_of_winner = none ∧ r.age_of_winner = none) :=
  ⟨⟨by decide, by decide, by decide, by decide⟩,
   C7_winner_details_null [w7pc] w7pc "2009" w7yd (by decide) (by decide) (by decide) (by decide)⟩

theorem lookup_eq_none_of_keys {β : Type} (m : String) :
    ∀ (l : List (String × β)), (∀ e ∈ l, (m == e.1) = false) → l.lookup m = none := by
  intro l
  induction l with
  | nil => intro _; rfl
  | cons e es ih =>
    intro h
    obtain ⟨k, b⟩ := e
    have hk : (m == k) = false := h (k, b) (List.mem_cons_self _ _)
    simp only [List.lookup, hk]
    exact ih fun e2 he2 => h e2 (List.mem_cons_of_mem _ he2)

theorem lookup_map_self_eq {β : Type} (f : String → β) (y : String) :
    ∀ (ys : List String) (l : β), ((ys.map fun x => (x, f x)).lookup y = some l) → l = f y := by
  intro ys
  induction ys with
  | nil =>
    intro l h
    simp [List.lookup] at h
  | cons x xs ih =>
    intro l h
    rw [List.map_cons] at h
    cases hq : (y == x) with
    | true =>
      simp only [List.lookup, hq] at h
      rw [beq_iff_eq.1 hq]
      exact (Option.some.inj h).symm
    | false =>
      simp only [List.lookup, hq] at h
      exact ih l h

theorem lookup_map_self_isSome {β : Type} (f : String → β) (y : String) :
    ∀ (ys : List String), y ∈ ys → ((ys.map fun x => (x, f x)).lookup y).isSome = true := by
  intro ys
  induction ys with
  | nil => intro h; exact absurd h (List.not_mem_nil y)
  | cons x xs ih =>
    intro hmem
    rw [List.map_cons]
    cases hq : (y == x) with
    | true => simp only [List.lookup, hq, Option.isSome_some]
    | false =>
      simp only [List.lookup, hq]
      rcases List.mem_cons.1 hmem with h | h
      · subst h
        simp at hq
      · exact ih h

theorem figsForYearRows_lookup_none (yearRows : List Row) (m : String)
    (h : colAllNull yearRows m = true) :
    (figsForYearRows yearRows).lookup m = none := by
  rw [figsForYearRows]
  by_cases he : yearRows.isEmpty = true
  · rw [if_pos he]
    rfl
  · rw [if_neg he]
    apply lookup_eq_none_of_keys
    intro e he2
    rcases List.mem_filterMap.1 he2 with ⟨cfg, hcfg, hf⟩
    by_cases hnull : colAllNull yearRows cfg.id = true
    · rw [if_pos hnull] at hf
      cases hf
    · rw [if_neg hnull] at hf
      have he1 : e = (cfg.id, plotFig cfg yearRows) := (Option.some.inj hf).symm
      cases hq : (m == e.1) with
      | false => rfl
      | true =>
        have hid : cfg.id = m := by
          have h1 : m = e.1 := beq_iff_eq.1 hq
          rw [he1] at h1
          exact h1.symm
        rw [hid] at hnull
        exact absurd h hnull

/-- C8, confirmed.  For any (year, metric) pair whose column is absent or
entirely null among that year's rows, the spatial build stores nothing
under that key (the pair is skipped with a warning rather than failing),
and the subsequent spatial lookup returns the "not found" result. -/
theorem C8_all_null_skipped (data : List Constituency) (y m : String)
    (h : colAllNull ((prepareDataframe data).filter fun r => r.year == y) m = true) :
    (∀ l, (buildFigs (prepareDataframe data)).lookup y = some l → l.lookup m = none) ∧
    getSpatial (buildFigs (prepareDataframe data)) y m = none := by
  have hmain : ∀ l, (buildFigs (prepareDataframe data)).lookup y = some l →
      l.lookup m = none := by
    intro l hl
    rw [buildFigs] at hl
    by_cases he : (prepareDataframe data).isEmpty = true
    · rw [if_pos he] at hl
      cases hl
    · rw [if_neg he] at hl
      have hly := lookup_map_self_eq (fun yy => figsForYear (prepareDataframe data) yy)
        y ELECTION_YEARS l hl
      rw [hly]
      exact figsForYearRows_lookup_none _ m h
  refine ⟨hmain, ?_⟩
  rw [getSpatial]
  cases hl : (buildFigs (prepareDataframe data)).lookup y with
  | none => rfl
  | some l => exact hmain l hl

/-- A record whose declared winner name matches no candidate, so the
gender_of_winner column is entirely null for 2009. -/
def w8yd : YearData :=
  { category := none,
    result := some ⟨some ⟨some "AAA", some 500, some "Nobody"⟩, none, none⟩,
    candidates := some [⟨some "Somebody", some "AAA", some 500, some "M", some 51,
      some "GEN", none⟩],
    voters := none, electors := none, votes := none }

def w8pc : Constituency := ⟨"W8PC", "WitEight", [("2009", w8yd)]⟩

/-- Witness for `C8_all_null_skipped` at a concrete input. -/
theorem C8_all_null_skipped_witness :
    colAllNull ((prepareDataframe [w8pc]).filter fun r => r.year == "2009")
      "gender_of_winner" = true ∧
    ((∀ l, (buildFigs (prepareDataframe [w8pc])).lookup "2009" = some l →
        l.lookup "gender_of_winner" = none) ∧
      getSpatial (buildFigs (prepareDataframe [w8pc])) "2009" "gender_of_winner" = none) :=
  ⟨by decide, C8_all_null_skipped [w8pc] "2009" "gender_of_winner" (by decide)⟩

/-- C9, confirmed.  The whole pipeline is a pure function of the loaded
input: byte-for-byte identical inputs produce identical artifact stores —
the same spatial keys, trend keys and artifact values, including the
category orderings stored inside each `GeoArtifact`.  (Every stage of the
embedding — normalization, consolidation, sorting, grouping, and the
`sorted(set(...))` category orders — is deterministic.) -/
theorem C9_pipeline_deterministic (d1 d2 : List Constituency) (h : d1 = d2) :
    runPipeline d1 = runPipeline d2 := by
  rw [h]

def c9pc : Constituency :=
  ⟨"C9PC", "WitNine", [("2009", ⟨some "GEN", none, none, none, none, none⟩)]⟩

/-- Witness for `C9_pipeline_deterministic` at a concrete input. -/
theorem C9_pipeline_deterministic_witness :
    ([c9pc] = [c9pc]) ∧ runPipeline [c9pc] = runPipeline [c9pc] :=
  ⟨rfl, C9_pipeline_deterministic [c9pc] [c9pc] rfl⟩

theorem prepareDataframe_year_mem (data : List Constituency) :
    ∀ r ∈ prepareDataframe data, r.year ∈ ELECTION_YEARS := by
  intro r hr
  obtain ⟨pc, hpc, y, hy, yd, hyd, v₁, v₂, rfl⟩ := mem_prepareDataframe hr
  exact hy

theorem mem_groupYears {rows : List Row} {y2 : String} (h : y2 ∈ groupYears rows) :
    ∃ r ∈ rows, r.year = y2 := by
  rw [groupYears, mem_sortBy, List.mem_dedup] at h
  rcases List.mem_map.1 h with ⟨r, hr, hy⟩
  exact ⟨r, hr, hy⟩

theorem trend_year_labels_mem (data : List Constituency) :
    ∀ p ∈ generateTrendFigures (prepareDataframe data),
      ∀ y2 ∈ trendYearLabels p.2, y2 ∈ ELECTION_YEARS := by
  intro p hp y2 hy2
  rw [generateTrendFigures] at hp
  by_cases he : (prepareDataframe data).isEmpty = true
  · rw [if_pos he] at hp
    cases hp
  · rw [if_neg he] at hp
    rcases List.mem_filterMap.1 hp with ⟨cfg, hcfg, hf⟩
    cases ht : cfg.type with
    | MAP_CONTINUOUS =>
      rw [ht] at hf
      have hp2 := Option.some.inj hf
      rw [← hp2] at hy2
      simp only [trendYearLabels, Option.getD_some, Option.getD_none, List.map_nil,
        List.append_nil] at hy2
      rcases List.mem_map.1 hy2 with ⟨pr, hpr, hpr2⟩
      rcases List.mem_map.1 hpr with ⟨yy, hyy, hyy2⟩
      obtain ⟨r, hr, hry⟩ := mem_groupYears hyy
      have e2 : yy = pr.1 := by rw [← hyy2]
      have e3 : y2 = r.year := by rw [← hpr2, ← e2, hry]
      rw [e3]
      exact prepareDataframe_year_mem data r hr
    | MAP_CATEGORICAL =>
      rw [ht] at hf
      have hp2 := Option.some.inj hf
      rw [← hp2] at hy2
      simp only [trendYearLabels, Option.getD_some, Option.getD_none, List.map_nil,
        List.nil_append] at hy2
      rcases List.mem_map.1 hy2 with ⟨pr, hpr, hpr2⟩
      rcases List.mem_map.1 hpr with ⟨k, hk, hk2⟩
      rw [mem_sortBy, List.mem_dedup] at hk
      rcases List.mem_filterMap.1 hk with ⟨r, hr, hgr⟩
      rcases Option.map_eq_some'.1 hgr with ⟨v, hv, hkv⟩
      have e1 : pr.1 = k := by rw [← hk2]
      have e3 : y2 = r.year := by rw [← hpr2, e1, ← hkv]
      rw [e3]
      exact prepareDataframe_year_mem data r hr
    | MAP_DISCRETE =>
      rw [ht] at hf
      cases hf

/-- C10, corrected.  Every Row's year label is one of the fixed
`ELECTION_YEARS`; every spatial-artifact year key and every year label of a
trend series is too (so a record under any other label, e.g. "2014",
produces no Row, no spatial artifact and no trend contribution).  The
converse — each listed year gets a spatial entry, an empty one when the
table has no rows for it — holds only when the normalized table is
non-empty: on an empty table the spatial map has no year entries at all. -/
theorem C10_year_domain (data : List Constituency) :
    (∀ r ∈ prepareDataframe data, r.year ∈ ELECTION_YEARS) ∧
    (∀ p ∈ buildFigs (prepareDataframe data), p.1 ∈ ELECTION_YEARS) ∧
    (∀ p ∈ generateTrendFigures (prepareDataframe data),
      ∀ y2 ∈ trendYearLabels p.2, y2 ∈ ELECTION_YEARS) ∧
    (prepareDataframe data ≠ [] →
      ∀ y ∈ ELECTION_YEARS, ((buildFigs (prepareDataframe data)).lookup y).isSome = true) := by
  refine ⟨prepareDataframe_year_mem data, ?_, trend_year_labels_mem data, ?_⟩
  · intro p hp
    rw [buildFigs] at hp
    by_cases he : (prepareDataframe data).isEmpty = true
    · rw [if_pos he] at hp
      cases hp
    · rw [if_neg he] at hp
      rcases List.mem_map.1 hp with ⟨yy, hyy, hpy⟩
      rw [← hpy]
      exact hyy
  · intro hne y hy
    rw [buildFigs, if_neg ?he]
    case he =>
      intro hc
      exact hne (List.isEmpty_iff.1 hc)
    exact lookup_map_self_isSome _ y ELECTION_YEARS hy

/-- A complete year record filed under the unprocessed label "2014". -/
def c10yd : YearData :=
  { category := some "GEN",
    result := some ⟨some ⟨some "AAA", some 500, some "Alice"⟩,
      some ⟨some "BBB", some 300⟩, some 200⟩,
    candidates := some [⟨some "Alice", some "AAA", some 500, some "F", some 45,
      some "GEN", none⟩],
    voters := some ⟨some ⟨some 400, some 400⟩, some ⟨some 800⟩, some ⟨some ⟨80, 1⟩⟩⟩,
    electors := some ⟨some ⟨some 500, some 500⟩, some ⟨some 1000⟩⟩,
    votes := some ⟨some 800⟩ }

def c10pc : Constituency := ⟨"C10PC", "CexTen", [("2014", c10yd)]⟩

/-- C10, counterexample: a constituency whose only (and fully populated)
record is under "2014" yields an empty table, no trend artifacts — and a
spatial map with *no* entry for "2009" (or any listed year), refuting the
claim's converse that each year of the fixed list always gets a (possibly
empty) entry. -/
theorem C10_counterexample :
    c10pc.lookupYear "2014" = some c10yd ∧
    prepareDataframe [c10pc] = [] ∧
    (buildFigs (prepareDataframe [c10pc])).lookup "2009" = none ∧
    generateTrendFigures (prepareDataframe [c10pc]) = [] ∧
    "2009" ∈ ELECTION_YEARS := by decide

def c10wpc : Constituency :=
  ⟨"C10W", "WitTen", [("2009", ⟨none, none, none, none, none, none⟩)]⟩

def w10row : Row :=
  ⟨"2009", "C10W", "WitTen", none, ⟨100, 1⟩, ⟨100, 1⟩, ⟨100, 1⟩, none, ⟨100, 1⟩,
   ⟨100, 1⟩, none, none, ⟨0, 1⟩, none, some "None (Unopposed)", ⟨0, 1⟩, ⟨100, 1⟩⟩

/-- Witness for `C10_year_domain` at a concrete input: a table with one 2009
row; "2019" still gets a (necessarily empty) spatial entry. -/
theorem C10_year_domain_witness :
    w10row ∈ prepareDataframe [c10wpc] ∧
    w10row.year ∈ ELECTION_YEARS ∧
    (prepareDataframe [c10wpc] ≠ [] ∧ "2019" ∈ ELECTION_YEARS ∧
      ((buildFigs (prepareDataframe [c10wpc])).lookup "2019").isSome = true) :=
  ⟨by decide, (C10_year_domain [c10wpc]).1 w10row (by decide),
   by decide, by decide,
   (C10_year_domain [c10wpc]).2.2.2 (by decide) "2019" (by decide)⟩

/-- Number of rows of the table carrying the index key `(y, i)`. -/
def keyCount (rows : List Row) (y i : String) : Nat :=
  List.countP (fun r => r.year == y && r.pc_id == i) rows

theorem keyCount_append (l1 l2 : List Row) (y i : String) :
    keyCount (l1 ++ l2) y i = keyCount l1 y i + keyCount l2 y i :=
  List.countP_append _ _ _

/-- Consolidation and sorting leave the `(year, pc_id)` key multiset
unchanged. -/
theorem keyCount_prepareDataframe (data : List Constituency) (y i : String) :
    keyCount (prepareDataframe data) y i = keyCount (rawRows data) y i := by
  rw [keyCount, keyCount, prepareDataframe]
  rw [List.Perm.countP_eq _ (sortBy_perm rowLE _)]
  rw [cleanRunnerUpParty, cleanColumn, List.countP_map]
  rw [cleanPartyOfWinner, cleanColumn, List.countP_map]
  exact List.countP_congr fun r _ => Iff.rfl

theorem rawRows_cons (pc : Constituency) (rest : List Constituency) :
    rawRows (pc :: rest) = pcBlock pc ++ rawRows rest := by
  rw [rawRows, rawRows, List.flatMap_cons]

theorem keyCount_filterMap_years (pc : Constituency) (y i : String) :
    ∀ (ys : List String), ys.Nodup →
      List.countP (fun r => r.year == y && r.pc_id == i)
        (ys.filterMap fun yy => (pc.lookupYear yy).map fun yd => buildRow pc yy yd) =
      if y ∈ ys ∧ i = pc.id ∧ (pc.lookupYear y).isSome = true then 1 else 0 := by
  intro ys
  induction ys with
  | nil =>
    intro _
    rw [List.filterMap_nil, List.countP_nil, if_neg]
    rintro ⟨hmem, _⟩
    exact List.not_mem_nil y hmem
  | cons yy ys ih =>
    intro hnd
    have hnotin := (List.nodup_cons.1 hnd).1
    have hnd2 := (List.nodup_cons.1 hnd).2
    have hiff : y ≠ yy → (y ∈ yy :: ys ↔ y ∈ ys) := by
      intro hy
      rw [List.mem_cons]
      constructor
      · rintro (h | h)
        · exact absurd h hy
        · exact h
      · exact Or.inr
    cases hyy : pc.lookupYear yy with
    | none =>
      simp only [List.filterMap_cons, hyy, Option.map_none']
      rw [ih hnd2]
      by_cases hy : y = yy
      · subst hy
        rw [if_neg, if_neg]
        · rintro ⟨_, _, hs⟩
          rw [hyy] at hs
          cases hs
        · rintro ⟨_, _, hs⟩
          rw [hyy] at hs
          cases hs
      · exact (if_congr (and_congr_left' (hiff hy)) rfl rfl).symm
    | some yd =>
      simp only [List.filterMap_cons, hyy, Option.map_some']
      rw [List.countP_cons, ih hnd2]
      by_cases hy : y = yy
      · subst hy
        by_cases hi : i = pc.id
        · subst hi
          have hp : ((buildRow pc y yd).year == y &&
              (buildRow pc y yd).pc_id == pc.id) = true := by
            show (y == y && pc.id == pc.id) = true
            simp
          rw [hp, if_pos rfl, if_neg ?hn1, if_pos ?hp2]
          case hn1 =>
            rintro ⟨hmem, _⟩
            exact hnotin hmem
          case hp2 =>
            exact ⟨List.mem_cons_self _ _, rfl, by rw [hyy]; rfl⟩
        · have hp : ((buildRow pc y yd).year == y &&
              (buildRow pc y yd).pc_id == i) = false := by
            show (y == y && pc.id == i) = false
            rw [beq_eq_false_iff_ne.2 (fun hc => hi hc.symm), Bool.and_false]
          rw [hp, if_neg Bool.false_ne_true, if_neg ?hn1, if_neg ?hn2]
          case hn1 =>
            rintro ⟨_, hii, _⟩
            exact hi hii
          case hn2 =>
            rintro ⟨_, hii, _⟩
            exact hi hii
      · have hp : ((buildRow pc yy yd).year == y &&
            (buildRow pc yy yd).pc_id == i) = false := by
          show (yy == y && pc.id == i) = false
          rw [beq_eq_false_iff_ne.2 (fun hc => hy hc.symm), Bool.false_and]
        rw [hp, if_neg Bool.false_ne_true]
        rw [(if_congr (and_congr_left' (hiff hy)) rfl rfl :
          (if (y ∈ yy :: ys ∧ i = pc.id ∧ (pc.lookupYear y).isSome = true) then (1 : Nat) else 0) =
            if (y ∈ ys ∧ i = pc.id ∧ (pc.lookupYear y).isSome = true) then 1 else 0)]
        rfl

/-- The rows one constituency contributes carry exactly one key per present
listed year. -/
theorem keyCount_pcBlock (pc : Constituency) (y i : String) :
    keyCount (pcBlock pc) y i =
      if y ∈ ELECTION_YEARS ∧ i = pc.id ∧ (pc.lookupYear y).isSome = true then 1 else 0 :=
  keyCount_filterMap_years pc y i ELECTION_YEARS (by decide)

theorem keyCount_rawRows_zero (y i : String) :
    ∀ (pcs : List Constituency), (∀ pc ∈ pcs, pc.id ≠ i) →
      keyCount (rawRows pcs) y i = 0 := by
  intro pcs
  induction pcs with
  | nil => intro _; rfl
  | cons pc rest ih =>
    intro h
    rw [rawRows_cons, keyCount_append]
    have h1 : keyCount (pcBlock pc) y i = 0 := by
      rw [keyCount_pcBlock, if_neg]
      rintro ⟨_, hii, _⟩
      exact h pc (List.mem_cons_self _ _) hii.symm
    rw [h1, ih fun pc2 h2 => h pc2 (List.mem_cons_of_mem _ h2)]

theorem keyCount_rawRows (data : List Constituency)
    (hdist : data.Pairwise fun a b => a.id ≠ b.id) (pc0 : Constituency) (y : String)
    (hpc0 : pc0 ∈ data) (hy : y ∈ ELECTION_YEARS) :
    keyCount (rawRows data) y pc0.id =
      if (pc0.lookupYear y).isSome = true then 1 else 0 := by
  induction data with
  | nil => cases hpc0
  | cons pc rest ih =>
    rw [rawRows_cons, keyCount_append]
    rcases List.mem_cons.1 hpc0 with heq | hmem
    · subst heq
      have hrest : keyCount (rawRows rest) y pc0.id = 0 := by
        apply keyCount_rawRows_zero
        intro pc2 h2 hc2
        exact ((List.pairwise_cons.1 hdist).1 pc2 h2) hc2.symm
      rw [hrest, keyCount_pcBlock]
      by_cases hs : (pc0.lookupYear y).isSome = true
      · rw [if_pos ⟨hy, rfl, hs⟩, if_pos hs]
      · rw [if_neg (fun hc => hs hc.2.2), if_neg hs]
    · have hne : pc.id ≠ pc0.id := (List.pairwise_cons.1 hdist).1 pc0 hmem
      have hblock : keyCount (pcBlock pc) y pc0.id = 0 := by
        rw [keyCount_pcBlock, if_neg]
        rintro ⟨_, hii, _⟩
        exact hne hii.symm
      rw [hblock, ih (List.pairwise_cons.1 hdist).2 hmem, Nat.zero_add]

theorem keyCount_rawRows_le_one (data : List Constituency)
    (hdist : data.Pairwise fun a b => a.id ≠ b.id) (y i : String) :
    keyCount (rawRows data) y i ≤ 1 := by
  induction data with
  | nil => exact Nat.zero_le 1
  | cons pc rest ih =>
    rw [rawRows_cons, keyCount_append, keyCount_pcBlock]
    by_cases hcond : y ∈ ELECTION_YEARS ∧ i = pc.id ∧ (pc.lookupYear y).isSome = true
    · rw [if_pos hcond]
      have hrest : keyCount (rawRows rest) y i = 0 := by
        apply keyCount_rawRows_zero
        intro pc2 h2 hc2
        have : pc.id = pc2.id := hcond.2.1.symm.trans hc2.symm
        exact ((List.pairwise_cons.1 hdist).1 pc2 h2) this
      rw [hrest]
    · rw [if_neg hcond]
      have := ih (List.pairwise_cons.1 hdist).2
      omega

/-- C6, corrected.  For inputs with pairwise-distinct constituency ids, the
table has exactly one row keyed `(y, pc.id)` for each constituency and each
year **of the fixed `ELECTION_YEARS` list** whose record is present and
non-empty, none otherwise, and every `(year, pc_id)` key is unique.  The
claim as stated fails because a present, non-empty record under a year
label outside the fixed list (e.g. "2014") produces no Row. -/
theorem C6_key_uniqueness (data : List Constituency)
    (hdist : data.Pairwise fun a b => a.id ≠ b.id) :
    (∀ pc ∈ data, ∀ y ∈ ELECTION_YEARS,
      keyCount (prepareDataframe data) y pc.id =
        if (pc.lookupYear y).isSome = true then 1 else 0) ∧
    (∀ y i, keyCount (prepareDataframe data) y i ≤ 1) := by
  constructor
  · intro pc hpc y hy
    rw [keyCount_prepareDataframe]
    exact keyCount_rawRows data hdist pc y hpc hy
  · intro y i
    rw [keyCount_prepareDataframe]
    exact keyCount_rawRows_le_one data hdist y i

/-- A complete year record filed only under "2014". -/
def c6yd : YearData :=
  { category := some "GEN",
    result := some ⟨some ⟨some "CCC", some 700, some "Bob"⟩,
      some ⟨some "DDD", some 200⟩, some 500⟩,
    candidates := some [⟨some "Bob", some "CCC", some 700, some "M", some 50,
      some "GEN", none⟩],
    voters := some ⟨some ⟨some 450, some 450⟩, some ⟨some 900⟩, some ⟨some ⟨75, 1⟩⟩⟩,
    electors := some ⟨some ⟨some 600, some 600⟩, some ⟨some 1200⟩⟩,
    votes := some ⟨some 900⟩ }

def c6pc : Constituency := ⟨"C6PC", "CexSix", [("2014", c6yd)]⟩

/-- C6, counterexample: an input with (trivially) pairwise-distinct ids
containing a present, non-empty year record — under the label "2014" — for
which the normalized table contains no Row at all. -/
theorem C6_counterexample :
    (c6pc.lookupYear "2014").isSome = true ∧
    prepareDataframe [c6pc] = [] ∧
    List.Pairwise (fun a b => a.id ≠ b.id) [c6pc] := by
  refine ⟨by decide, by decide, ?_⟩
  exact List.pairwise_singleton _ _

def w6pc1 : Constituency :=
  ⟨"W6A", "WitSixA", [("2009", ⟨none, none, none, none, none, none⟩),
    ("2019", ⟨some "GEN", none, none, none, none, none⟩)]⟩

def w6pc2 : Constituency :=
  ⟨"W6B", "WitSixB", [("2009", ⟨none, none, none, none, none, none⟩)]⟩

/-- Witness for `C6_key_uniqueness` at a concrete input: two constituencies
with distinct ids, three rows in total. -/
theorem C6_key_uniqueness_witness :
    List.Pairwise (fun a b => a.id ≠ b.id) [w6pc1, w6pc2] ∧
    w6pc1 ∈ [w6pc1, w6pc2] ∧ "2019" ∈ ELECTION_YEARS ∧
    keyCount (prepareDataframe [w6pc1, w6pc2]) "2019" w6pc1.id =
      (if (w6pc1.lookupYear "2019").isSome = true then 1 else 0) ∧
    keyCount (prepareDataframe [w6pc1, w6pc2]) "2024" "W6A" ≤ 1 := by
  have h := C6_key_uniqueness [w6pc1, w6pc2] (by decide)
  exact ⟨by decide, by decide, by decide,
    h.1 w6pc1 (by decide) "2019" (by decide), h.2 "2024" "W6A"⟩

/-- Sanity evaluation of the embedding: a single constituency with one
present-but-all-defaults 2009 record yields exactly the all-defaults row. -/
theorem prepareDataframe_all_defaults :
    prepareDataframe [⟨"PC1", "Alpha",
      [("2009", ⟨none, none, none, none, none, none⟩)]⟩] =
    [{ year := "2009", pc_id := "PC1", pc_name := "Alpha", category := none
       total_voter_turnout := ⟨100, 1⟩
       male_voter_turnout := ⟨100, 1⟩
       female_voter_turnout := ⟨100, 1⟩
       party_of_winner := none
       margin := ⟨100, 1⟩
       vote_share_of_winner := ⟨100, 1⟩
       gender_of_winner := none
       category_of_winner := none
       nota_vote_share := ⟨0, 1⟩
       age_of_winner := none
       runner_up_party := some "None (Unopposed)"
       true_mandate := ⟨0, 1⟩
       vote_splitting_index := ⟨100, 1⟩ }] := by decide
